import Mathlib

/-!
Verification of the PDF parsing / figure-extraction core
(`app/services/pdf_parser.py` of the research-summarizer repository).

Shallow embedding conventions:
* page-space float coordinates are modelled as exact rationals (`ℚ`);
* `fitz.Rect` is a four-field structure; `&` / `|` are the coordinate-wise
  intersection / union used by PyMuPDF, `is_empty` is `x0 ≥ x1 ∨ y0 ≥ y1`;
* a `fitz.Page` is modelled by the data the parser reads from it: its rect,
  its extracted text, its text blocks (already joined and stripped, as
  `_collect_text_blocks` produces them), its raw vector-drawing rectangles
  (wrapped in `Except` because `page.get_drawings()` may raise — the source
  swallows that), its raw raster blocks, its embedded image count, and its
  rendering behaviour `render : dpi → clip → Except err png` (rendering is
  deterministic but may raise, which the source does *not* swallow);
* Python exceptions are modelled with `Except`; the fatal `PDFExtractionError`
  of `parse_pdf` is the `PDFError` type below;
* `parse_pdf` additionally reports whether `doc.close()` was executed on the
  taken exit path (`docClosed`), read off the control flow of the source.
-/

unseal Rat.add Rat.mul Rat.inv Rat.sub

set_option maxRecDepth 4000

deriving instance DecidableEq for Except

namespace PdfParser

/-- `fitz.Rect`: a rectangle in page space, floats modelled as rationals. -/
structure Rect where
  x0 : ℚ
  y0 : ℚ
  x1 : ℚ
  y1 : ℚ
deriving DecidableEq, Repr

/-- `Rect.width` of PyMuPDF. -/
def Rect.width (r : Rect) : ℚ := r.x1 - r.x0

/-- `Rect.height` of PyMuPDF. -/
def Rect.height (r : Rect) : ℚ := r.y1 - r.y0

/-- `Rect.is_empty` of PyMuPDF: true iff `x0 ≥ x1` or `y0 ≥ y1`. -/
def Rect.isEmpty (r : Rect) : Bool := decide (r.x1 ≤ r.x0) || decide (r.y1 ≤ r.y0)

/-- `r & s` of PyMuPDF (coordinate-wise intersection). -/
def Rect.inter (r s : Rect) : Rect :=
  ⟨max r.x0 s.x0, max r.y0 s.y0, min r.x1 s.x1, min r.y1 s.y1⟩

/-- `r | s` of PyMuPDF (bounding box of the two rectangles). -/
def Rect.union (r s : Rect) : Rect :=
  ⟨min r.x0 s.x0, min r.y0 s.y0, max r.x1 s.x1, max r.y1 s.y1⟩

-- ── Constants of the source module ──

def MAX_VISION_PAGES : ℕ := 8

def FULL_PAGE_DPI : ℚ := 150

def CROP_DPI : ℚ := 200

def CROP_PAD : ℚ := 8

def MIN_DRAWING_W : ℚ := 10

def MIN_DRAWING_H : ℚ := 10

/-- The characters of the `MATH_SYMBOLS` set. -/
def MATH_SYMBOLS : List Char :=
  "∑∏∫∂∇αβγδεζηθλμνπρσφψωΩΓΔΘΛΞΠΣΦΨ≈≠≤≥←→⇒⇔∈∉∅∞±×÷√".toList

-- ── The caption regular expression ──────────────────────────────────────────
-- `FIGURE_CAPTION_RE = re.compile(r"^\s*(figure|fig\.?)\s*\d", re.IGNORECASE)`
-- used through `.match` (anchored at the start of the block text).

/-- Python `\s` (ASCII range, as relevant to extracted PDF text). -/
def isSpaceChar (c : Char) : Bool :=
  c = ' ' || c = '\t' || c = '\n' || c = '\x0b' || c = '\x0c' || c = '\r'

/-- Python `\d` (ASCII digits). -/
def isDigitChar (c : Char) : Bool := '0' ≤ c && c ≤ '9'

/-- The `\s*\d` tail of the caption pattern: greedily skip whitespace, then
require a digit. -/
def captionTail (cs : List Char) : Bool :=
  match cs.dropWhile isSpaceChar with
  | [] => false
  | c :: _ => isDigitChar c

/-- The `(figure|fig\.?)` alternation continued by `\s*\d`, applied to
lower-cased input that already starts after `\s*`; faithful to the regex
backtracking order (`figure` first, then `fig.` , then `fig`). -/
def captionAfterFig (rest : List Char) : Bool :=
  (match rest with
   | 'u' :: 'r' :: 'e' :: rest2 => captionTail rest2
   | _ => false) ||
  (match rest with
   | '.' :: rest2 => captionTail rest2 || captionTail rest
   | _ => captionTail rest)

/-- `FIGURE_CAPTION_RE.match(t)` as a Boolean: `^\s*(figure|fig\.?)\s*\d`,
case-insensitively. -/
def figureCaptionMatch (t : String) : Bool :=
  match (t.toList.map Char.toLower).dropWhile isSpaceChar with
  | 'f' :: 'i' :: 'g' :: rest => captionAfterFig rest
  | _ => false

-- ── The `has_figure_keyword` regular expression ─────────────────────────────
-- `re.search(r"\b(figure|fig\.|table|equation|eq\.)\b", text, re.I)`.

/-- Python `\w` (ASCII word characters). -/
def isWordChar (c : Char) : Bool :=
  ('a' ≤ c && c ≤ 'z') || ('A' ≤ c && c ≤ 'Z') || isDigitChar c || c = '_'

/-- The keyword alternatives of the `has_figure_keyword` search, lower-cased. -/
def keywordAlternatives : List (List Char) :=
  ["figure".toList, "fig.".toList, "table".toList, "equation".toList, "eq.".toList]

/-- Case-insensitive literal match of `pat` at the head of `cs`, returning the
remainder on success. -/
def matchLiteralCI : List Char → List Char → Option (List Char)
  | [], cs => some cs
  | _ :: _, [] => none
  | p :: ps, c :: cs => if Char.toLower c = p then matchLiteralCI ps cs else none

/-- Does one of the keyword alternatives match at this position, with `\b` on
both sides?  `prevWord` says whether the character before this position is a
word character (false at the start of the string).  Every alternative starts
with a word character, so the left boundary requires `¬prevWord`; the right
boundary is an exclusive-or between the word-ness of the last pattern
character and of the following character (end of input counts as non-word). -/
def keywordMatchAt (prevWord : Bool) (cs : List Char) : Bool :=
  !prevWord && keywordAlternatives.any fun pat =>
    match matchLiteralCI pat cs with
    | none => false
    | some rest =>
      let lastWord : Bool := match pat.getLast? with
        | some c => isWordChar c
        | none => false
      match rest with
      | [] => lastWord
      | c :: _ => Bool.xor lastWord (isWordChar c)

/-- Scan every position of the character list for a keyword match. -/
def hasFigureKeywordAux : Bool → List Char → Bool
  | _, [] => false
  | prevWord, c :: rest =>
    keywordMatchAt prevWord (c :: rest) || hasFigureKeywordAux (isWordChar c) rest

/-- `bool(re.search(r"\b(figure|fig\.|table|equation|eq\.)\b", text, re.I))`. -/
def hasFigureKeyword (text : String) : Bool :=
  hasFigureKeywordAux false text.toList

-- ── Data structures of the source ───────────────────────────────────────────

/-- Python `str.strip()`: drop leading and trailing whitespace. -/
def pyStrip (s : String) : String :=
  String.mk (((s.toList.dropWhile isSpaceChar).reverse.dropWhile isSpaceChar).reverse)

/-- `CroppedFigure` dataclass. -/
structure CroppedFigure where
  page_number : ℕ
  caption : String
  png_b64 : String
deriving DecidableEq, Repr

/-- `PageData` dataclass. -/
structure PageData where
  page_number : ℕ
  text : String
  has_figure_keyword : Bool
  math_density : ℚ
  image_count : ℕ
  is_key_page : Bool := false
  png_b64 : String := ""
  cropped_figures : List CroppedFigure := []
deriving DecidableEq, Repr

/-- `ParsedPDF` dataclass. -/
structure ParsedPDF where
  pages : List PageData := []
  full_text : String := ""
  key_pages : List PageData := []
deriving DecidableEq, Repr

/-- A `fitz.Page`, modelled by the data the parser reads from it. -/
structure Page where
  rect : Rect
  text : String
  textBlocks : List (Rect × String)
  drawings : Except String (List Rect)
  rasterBlocks : List Rect
  imageCount : ℕ
  render : ℚ → Rect → Except String String

/-- A `fitz.Document`: its ordered pages. -/
structure Document where
  pages : List Page

-- ── Collectors ──────────────────────────────────────────────────────────────

/-- `_collect_text_blocks`: the non-empty (joined, stripped) text blocks. -/
def _collect_text_blocks (page : Page) : List (Rect × String) :=
  page.textBlocks.filter fun b => decide (b.2 ≠ "")

/-- `_collect_raster_blocks`: raster blocks larger than the minimum size. -/
def _collect_raster_blocks (page : Page) : List Rect :=
  page.rasterBlocks.filter fun r =>
    decide (MIN_DRAWING_W < r.width) && decide (MIN_DRAWING_H < r.height)

/-- `_collect_drawing_rects`: drawing rectangles larger than the minimum size;
an exception from `page.get_drawings()` is swallowed, yielding `[]`. -/
def _collect_drawing_rects (page : Page) : List Rect :=
  match page.drawings with
  | Except.error _ => []
  | Except.ok ds =>
    ds.filter fun r =>
      decide (MIN_DRAWING_W < r.width) && decide (MIN_DRAWING_H < r.height)

/-- `_union_rects`: bounding box of a list of rectangles (`None` on `[]`). -/
def _union_rects (rects : List Rect) : Option Rect :=
  match rects with
  | [] => none
  | r :: rs => some (rs.foldl Rect.union r)

/-- `_figure_is_above_caption`: the caption's top edge is lower than 30% of
the page height. -/
def _figure_is_above_caption (caption_rect : Rect) (page_height : ℚ) : Bool :=
  decide (page_height * (30 / 100) < caption_rect.y0)

/-- The search zone of `_crop_for_caption` step 1–2: full page width, above or
below the caption according to the classification. -/
def searchZone (caption_rect page_rect : Rect) : Rect :=
  if _figure_is_above_caption caption_rect page_rect.height then
    ⟨page_rect.x0, page_rect.y0, page_rect.x1, caption_rect.y0⟩
  else
    ⟨page_rect.x0, caption_rect.y1, page_rect.x1, page_rect.y1⟩

/-- The `zone_rects` filter of `_crop_for_caption`: the drawing/raster
rectangles whose intersection with the search zone is non-empty and larger
than the minimum drawing size. -/
def zoneSurvivors (caption_rect page_rect : Rect) (rects : List Rect) : List Rect :=
  rects.filter fun r =>
    let inter := Rect.inter r (searchZone caption_rect page_rect)
    !inter.isEmpty && decide (MIN_DRAWING_W < inter.width)
      && decide (MIN_DRAWING_H < inter.height)

/-- `_crop_for_caption`: the figure region for one caption, or `none`.
(The Python `if combined and combined.width > 20 and combined.height > 20`
is modelled without the truthiness test on `combined`: the only falsy
rectangle is the all-zero one, whose width is not `> 20` either, so the
branch taken is the same.) -/
def _crop_for_caption (caption_rect : Rect) (_caption_text : String) (page : Page)
    (drawing_rects raster_rects : List Rect)
    (_text_blocks : List (Rect × String)) : Option Rect :=
  let page_rect := page.rect
  let fig_above := _figure_is_above_caption caption_rect page_rect.height
  let zone_rects := zoneSurvivors caption_rect page_rect (drawing_rects ++ raster_rects)
  let viaUnion : Option Rect :=
    if zone_rects.isEmpty then none
    else
      match _union_rects zone_rects with
      | none => none
      | some combined =>
        if decide (20 < combined.width) && decide (20 < combined.height) then
          some (Rect.union combined caption_rect)
        else none
  match viaUnion with
  | some r => some r
  | none =>
    let fallback_h : ℚ :=
      if fig_above then min 200 (caption_rect.y0 - page_rect.y0) else 200
    if fig_above && decide ((40 : ℚ) < fallback_h) then
      some ⟨caption_rect.x0 - 20, caption_rect.y0 - fallback_h,
            caption_rect.x1 + 20, caption_rect.y1⟩
    else none

/-- The clamp-and-pad step of `_extract_cropped_figures`: pad the inferred
region by `CROP_PAD` and clamp it to the page rectangle. -/
def clampCrop (crop0 page_rect : Rect) : Rect :=
  ⟨max (crop0.x0 - CROP_PAD) page_rect.x0,
   max (crop0.y0 - CROP_PAD) page_rect.y0,
   min (crop0.x1 + CROP_PAD) page_rect.x1,
   min (crop0.y1 + CROP_PAD) page_rect.y1⟩

/-- The per-caption loop of `_extract_cropped_figures`: infer the crop,
skip the caption when inference fails or the clamped rectangle is degenerate,
render otherwise (rendering may raise, which propagates). -/
def extractLoop (page : Page) (page_number : ℕ)
    (drawing_rects raster_rects : List Rect) (text_blocks : List (Rect × String)) :
    List (Rect × String) → Except String (List CroppedFigure)
  | [] => Except.ok []
  | (cap_rect, cap_text) :: caps =>
    let page_rect := page.rect
    match _crop_for_caption cap_rect cap_text page drawing_rects raster_rects text_blocks with
    | none => extractLoop page page_number drawing_rects raster_rects text_blocks caps
    | some crop0 =>
      let crop_rect : Rect := clampCrop crop0 page_rect
      if crop_rect.width < 20 ∨ crop_rect.height < 20 then
        extractLoop page page_number drawing_rects raster_rects text_blocks caps
      else
        match page.render CROP_DPI crop_rect with
        | Except.error e => Except.error e
        | Except.ok png =>
          match extractLoop page page_number drawing_rects raster_rects text_blocks caps with
          | Except.error e => Except.error e
          | Except.ok figs =>
            Except.ok (⟨page_number, pyStrip cap_text, png⟩ :: figs)

/-- `_extract_cropped_figures`: collect blocks, find captions, run the loop. -/
def _extract_cropped_figures (page : Page) (page_number : ℕ) :
    Except String (List CroppedFigure) :=
  let text_blocks := _collect_text_blocks page
  let drawing_rects := _collect_drawing_rects page
  let raster_rects := _collect_raster_blocks page
  let captions := text_blocks.filter fun b => figureCaptionMatch b.2
  extractLoop page page_number drawing_rects raster_rects text_blocks captions

-- ── Scoring ─────────────────────────────────────────────────────────────────

/-- `_math_density`: fraction of characters that are math symbols, `0.0` on
the empty string. -/
def _math_density (text : String) : ℚ :=
  if text = "" then 0
  else ((text.toList.filter fun ch => decide (ch ∈ MATH_SYMBOLS)).length : ℚ)
       / (text.length : ℚ)

/-- `_score_page`. -/
def _score_page (pd : PageData) : ℚ :=
  let score : ℚ := 0
  let score := if pd.has_figure_keyword then score + 4 else score
  let score :=
    if pd.cropped_figures.isEmpty then score
    else score + 3 * (pd.cropped_figures.length : ℚ)
  let score :=
    if 0 < pd.image_count then score + 2 * ((min pd.image_count 3 : ℕ) : ℚ)
    else score
  score + _math_density pd.text * 20

-- ── Public API: `parse_pdf` ─────────────────────────────────────────────────

/-- The ordering used by `sorted(pages, key=_score_page, reverse=True)`:
descending score.  Python's sort is stable, which `List.insertionSort`
matches. -/
def scoreGE (a b : PageData) : Prop := _score_page b ≤ _score_page a

instance : DecidableRel scoreGE := fun a b =>
  inferInstanceAs (Decidable (_score_page b ≤ _score_page a))

instance : IsTotal PageData scoreGE := ⟨fun a b => le_total (_score_page b) (_score_page a)⟩

instance : IsTrans PageData scoreGE :=
  ⟨fun _ _ _ h1 h2 => le_trans h2 h1⟩

/-- The ordering used by `sorted(key_page_list, key=lambda p: p.page_number)`. -/
def pageNumLE (a b : PageData) : Prop := a.page_number ≤ b.page_number

instance : DecidableRel pageNumLE := fun a b =>
  inferInstanceAs (Decidable (a.page_number ≤ b.page_number))

instance : IsTotal PageData pageNumLE := ⟨fun a b => le_total a.page_number b.page_number⟩

instance : IsTrans PageData pageNumLE := ⟨fun _ _ _ h1 h2 => le_trans h1 h2⟩

/-- `sorted(pages, key=_score_page, reverse=True)`. -/
def sortedByScoreDesc (pages : List PageData) : List PageData :=
  List.insertionSort scoreGE pages

/-- The pages the selection loop adds to `key_pages_set`:
`[pd for pd in sorted(pages, key=_score_page, reverse=True)[:MAX_VISION_PAGES]
  if _score_page(pd) > 0.5]`. -/
def candidatePages (pages : List PageData) : List PageData :=
  ((sortedByScoreDesc pages).take MAX_VISION_PAGES).filter fun pd =>
    decide ((1 / 2 : ℚ) < _score_page pd)

/-- The final contents of `key_pages_set`: page 1, the last page when there
is more than one, and the page numbers of the selection loop's additions. -/
def keyPagesSet (pages : List PageData) : Finset ℕ :=
  ({1} : Finset ℕ) ∪ (if 1 < pages.length then {pages.length} else ∅)
    ∪ ((candidatePages pages).map PageData.page_number).toFinset

/-- `_render_full_page` (default dpi is supplied by the caller model). -/
def _render_full_page (page : Page) (dpi : ℚ) : Except String String :=
  page.render dpi page.rect

/-- The key-page marking loop of `parse_pdf`: walk `pages` in order; a page
whose number is in the set gets `is_key_page := true` and a full-page render
(of `doc[pd.page_number - 1]`, which may raise) and joins `key_page_list`;
the mutated page objects are shared between the page list and the key list. -/
def markKeyPages (doc : Document) (keySet : Finset ℕ) :
    List PageData → Except String (List PageData × List PageData)
  | [] => Except.ok ([], [])
  | pd :: rest =>
    if pd.page_number ∈ keySet then
      match doc.pages[pd.page_number - 1]? with
      | none => Except.error "page out of range"
      | some p =>
        match _render_full_page p FULL_PAGE_DPI with
        | Except.error e => Except.error e
        | Except.ok png =>
          match markKeyPages doc keySet rest with
          | Except.error e => Except.error e
          | Except.ok (ps, ks) =>
            let pd2 := { pd with is_key_page := true, png_b64 := png }
            Except.ok (pd2 :: ps, pd2 :: ks)
    else
      match markKeyPages doc keySet rest with
      | Except.error e => Except.error e
      | Except.ok (ps, ks) => Except.ok (pd :: ps, ks)

/-- One iteration of the page loop of `parse_pdf`: page text, image count and
cropped figures (whose extraction may raise). -/
def buildPage (fitz_page : Page) (page_num : ℕ) : Except String PageData :=
  match _extract_cropped_figures fitz_page page_num with
  | Except.error e => Except.error e
  | Except.ok cropped =>
    Except.ok
      { page_number := page_num
        text := fitz_page.text
        has_figure_keyword := hasFigureKeyword fitz_page.text
        math_density := _math_density fitz_page.text
        image_count := fitz_page.imageCount
        cropped_figures := cropped }

/-- The `for i, fitz_page in enumerate(doc)` loop (`i` starts at 0). -/
def buildPages : ℕ → List Page → Except String (List PageData)
  | _, [] => Except.ok []
  | i, p :: rest =>
    match buildPage p (i + 1) with
    | Except.error e => Except.error e
    | Except.ok pd =>
      match buildPages (i + 1) rest with
      | Except.error e => Except.error e
      | Except.ok pds => Except.ok (pd :: pds)

/-- The typed error of `parse_pdf`: a `PDFExtractionError` raised directly,
or one wrapping a generic exception (`"Failed to parse PDF."`). -/
inductive PDFError where
  | extraction (message : String)
  | wrapped (message : String) (original : String)
deriving DecidableEq, Repr

/-- Result of a `parse_pdf` run: the returned value or raised error, plus
whether `doc.close()` was executed on the taken exit path. -/
structure ParseOutcome where
  result : Except PDFError ParsedPDF
  docClosed : Bool
deriving Repr

/-- `parse_pdf`, from the opened document on.  The source closes the document
only on the success path (between the key-page loop and the `return`); the
`finally` block only unlinks the temporary file, so every error exit leaves
the handle open — `docClosed` records this. -/
def parse_pdf (doc : Document) : ParseOutcome :=
  match buildPages 0 doc.pages with
  | Except.error e =>
    { result := Except.error (PDFError.wrapped "Failed to parse PDF." e)
      docClosed := false }
  | Except.ok pages =>
    if pages.isEmpty then
      { result := Except.error (PDFError.extraction "PDF appears to have no pages.")
        docClosed := false }
    else
      let full_text := pyStrip (String.intercalate "\n\n" (pages.map PageData.text))
      if full_text.length < 100 then
        { result := Except.error (PDFError.extraction
            "Very little text extracted — PDF may be scanned or image-only.")
          docClosed := false }
      else
        match markKeyPages doc (keyPagesSet pages) pages with
        | Except.error e =>
          { result := Except.error (PDFError.wrapped "Failed to parse PDF." e)
            docClosed := false }
        | Except.ok (pages2, key_page_list) =>
          { result := Except.ok
              { pages := pages2
                full_text := full_text
                key_pages := List.insertionSort pageNumLE key_page_list }
            docClosed := true }

/-- `Except.isOk` helper. -/
def exceptIsOk {ε α : Type} : Except ε α → Bool
  | Except.ok _ => true
  | Except.error _ => false

-- ── Concrete inputs used by witnesses and counterexamples ───────────────────

/-- A page with no drawings and no text blocks (C3). -/
def pageC3 : Page :=
  { rect := ⟨0, 0, 612, 792⟩, text := "", textBlocks := [], drawings := Except.ok [],
    rasterBlocks := [], imageCount := 0, render := fun _ _ => Except.ok "png" }

/-- A page with one caption and one large drawing above it (C5). -/
def pageC5 : Page :=
  { rect := ⟨0, 0, 612, 792⟩, text := "", textBlocks := [(⟨100, 700, 300, 712⟩, "Figure 1: Test")],
    drawings := Except.ok [⟨150, 400, 450, 650⟩], rasterBlocks := [], imageCount := 0,
    render := fun _ _ => Except.ok "png" }

def figC5 : CroppedFigure := ⟨1, "Figure 1: Test", "png"⟩

/-- A page with two captions whose renderer always raises (C1). -/
def pageC1a : Page :=
  { rect := ⟨0, 0, 612, 792⟩, text := "first page text",
    textBlocks := [(⟨100, 700, 300, 712⟩, "Figure 1: A"), (⟨100, 300, 300, 312⟩, "Figure 2: B")],
    drawings := Except.ok [], rasterBlocks := [], imageCount := 0,
    render := fun _ _ => Except.error "render failed" }

/-- A caption-free page whose renderer works (C1). -/
def pageC1b : Page :=
  { rect := ⟨0, 0, 612, 792⟩, text := "second page text", textBlocks := [],
    drawings := Except.ok [], rasterBlocks := [], imageCount := 0,
    render := fun _ _ => Except.ok "png" }

def docC1 : Document := ⟨[pageC1a, pageC1b]⟩

/-- `pageC1a` with a working renderer (C1). -/
def pageC1ok : Page :=
  { rect := ⟨0, 0, 612, 792⟩, text := "first page text",
    textBlocks := [(⟨100, 700, 300, 712⟩, "Figure 1: A"), (⟨100, 300, 300, 312⟩, "Figure 2: B")],
    drawings := Except.ok [], rasterBlocks := [], imageCount := 0,
    render := fun _ _ => Except.ok "png" }

def taC8 : String :=
  "aaaaaaaaaaaaaaaaaaaaaaaaaaaaaaaaaaaaaaaaaaaaaaaaaaaaaaaaaaaa"

def tbC8 : String :=
  "bbbbbbbbbbbbbbbbbbbbbbbbbbbbbbbbbbbbbbbbbbbbbbbbbbbbbbbbbbbb"

/-- A plain text-only page (C8). -/
def pageC8a : Page :=
  { rect := ⟨0, 0, 612, 792⟩, text := taC8, textBlocks := [], drawings := Except.ok [],
    rasterBlocks := [], imageCount := 0, render := fun _ _ => Except.ok "png" }

/-- A second plain text-only page (C8). -/
def pageC8b : Page :=
  { rect := ⟨0, 0, 612, 792⟩, text := tbC8, textBlocks := [], drawings := Except.ok [],
    rasterBlocks := [], imageCount := 0, render := fun _ _ => Except.ok "png" }

def docC8 : Document := ⟨[pageC8a, pageC8b]⟩

def pdC8a : PageData :=
  { page_number := 1, text := taC8, has_figure_keyword := false, math_density := 0,
    image_count := 0, is_key_page := true, png_b64 := "png", cropped_figures := [] }

def pdC8b : PageData :=
  { page_number := 2, text := tbC8, has_figure_keyword := false, math_density := 0,
    image_count := 0, is_key_page := true, png_b64 := "png", cropped_figures := [] }

def pdfC8 : ParsedPDF :=
  { pages := [pdC8a, pdC8b], full_text := taC8 ++ "\n\n" ++ tbC8,
    key_pages := [pdC8a, pdC8b] }

def tC7 : String :=
  "cccccccccccccccccccccccccccccccccccccccccccccccccccccccccccccccccccccccccccccccccccccccccccccccccccccccccccccccccccccccc"

/-- A single 120-character page (C7). -/
def pageC7 : Page :=
  { rect := ⟨0, 0, 612, 792⟩, text := tC7, textBlocks := [], drawings := Except.ok [],
    rasterBlocks := [], imageCount := 0, render := fun _ _ => Except.ok "png" }

def docC7 : Document := ⟨[pageC7]⟩

def pdC7 : PageData :=
  { page_number := 1, text := tC7, has_figure_keyword := false, math_density := 0,
    image_count := 0, is_key_page := true, png_b64 := "png", cropped_figures := [] }

def pdfC7 : ParsedPDF :=
  { pages := [pdC7], full_text := tC7, key_pages := [pdC7] }

/-- A single 120-character page (C9). -/
def pageC9 : Page :=
  { rect := ⟨0, 0, 612, 792⟩, text := tC7, textBlocks := [], drawings := Except.ok [],
    rasterBlocks := [], imageCount := 0, render := fun _ _ => Except.ok "png" }

def docC9 : Document := ⟨[pageC9]⟩

/-- A 120-character page with a caption whose renderer raises (C9). -/
def pageC9x : Page :=
  { rect := ⟨0, 0, 612, 792⟩, text := tC7,
    textBlocks := [(⟨100, 700, 300, 712⟩, "Figure 1: A")], drawings := Except.ok [],
    rasterBlocks := [], imageCount := 0, render := fun _ _ => Except.error "boom" }

def docC9x : Document := ⟨[pageC9x]⟩

/-- Two equal-scoring pages (C6): both carry the keyword, so both score 4. -/
def pW1 : PageData :=
  { page_number := 1, text := "", has_figure_keyword := true, math_density := 0,
    image_count := 0 }

def pW2 : PageData :=
  { page_number := 2, text := "", has_figure_keyword := true, math_density := 0,
    image_count := 0 }

/-- Render totality: every render call of the page succeeds. -/
def renderTotal (p : Page) : Prop :=
  ∀ (dpi : ℚ) (r : Rect), exceptIsOk (p.render dpi r) = true

-- ── Lemmas about the extraction loop ────────────────────────────────────────

theorem extractLoop_ok {page : Page} {n : ℕ} {ds rs : List Rect}
    {tb : List (Rect × String)} (hr : renderTotal page) :
    ∀ caps : List (Rect × String), ∃ figs, extractLoop page n ds rs tb caps = Except.ok figs := by
  intro caps
  induction caps with
  | nil => exact ⟨[], rfl⟩
  | cons c caps ih =>
    obtain ⟨cr, ct⟩ := c
    obtain ⟨figs, hfigs⟩ := ih
    cases hc : _crop_for_caption cr ct page ds rs tb with
    | none => exact ⟨figs, by simp only [extractLoop, hc]; exact hfigs⟩
    | some crop0 =>
      by_cases hsz : (clampCrop crop0 page.rect).width < 20 ∨
          (clampCrop crop0 page.rect).height < 20
      · exact ⟨figs, by simp only [extractLoop, hc]; rw [if_pos hsz]; exact hfigs⟩
      · have htot := hr CROP_DPI (clampCrop crop0 page.rect)
        cases hren : page.render CROP_DPI (clampCrop crop0 page.rect) with
        | error e => rw [hren] at htot; exact absurd htot (by simp [exceptIsOk])
        | ok png =>
          exact ⟨_, by simp only [extractLoop, hc]; rw [if_neg hsz, hren, hfigs]⟩

theorem extractLoop_mem {page : Page} {n : ℕ} {ds rs : List Rect}
    {tb : List (Rect × String)} :
    ∀ {caps : List (Rect × String)} {figs : List CroppedFigure},
      extractLoop page n ds rs tb caps = Except.ok figs →
      ∀ {fig : CroppedFigure}, fig ∈ figs →
      ∃ r : Rect,
        page.render CROP_DPI r = Except.ok fig.png_b64 ∧
        20 ≤ r.width ∧ 20 ≤ r.height ∧
        page.rect.x0 ≤ r.x0 ∧ page.rect.y0 ≤ r.y0 ∧
        r.x1 ≤ page.rect.x1 ∧ r.y1 ≤ page.rect.y1 := by
  intro caps
  induction caps with
  | nil =>
    intro figs h fig hf
    simp only [extractLoop, Except.ok.injEq] at h
    subst h; cases hf
  | cons c caps ih =>
    obtain ⟨cr, ct⟩ := c
    intro figs h fig hf
    simp only [extractLoop] at h
    cases hc : _crop_for_caption cr ct page ds rs tb with
    | none => simp only [hc] at h; exact ih h hf
    | some crop0 =>
      simp only [hc] at h
      by_cases hsz : (clampCrop crop0 page.rect).width < 20 ∨
          (clampCrop crop0 page.rect).height < 20
      · rw [if_pos hsz] at h; exact ih h hf
      · rw [if_neg hsz] at h
        cases hren : page.render CROP_DPI (clampCrop crop0 page.rect) with
        | error e => rw [hren] at h; cases h
        | ok png =>
          rw [hren] at h
          cases hrec : extractLoop page n ds rs tb caps with
          | error e => rw [hrec] at h; cases h
          | ok figs' =>
            rw [hrec] at h
            simp only [Except.ok.injEq] at h
            subst h
            rcases List.mem_cons.mp hf with rfl | hf'
            · push_neg at hsz
              exact ⟨clampCrop crop0 page.rect, hren, hsz.1, hsz.2,
                le_max_right _ _, le_max_right _ _, min_le_right _ _, min_le_right _ _⟩
            · exact ih hrec hf'

-- ── Claim C10 ───────────────────────────────────────────────────────────────

/-- C10: `_math_density` always returns a rational in the closed interval
`[0, 1]`, and returns exactly `0` on the empty string, so the division by the
text length is never performed on a zero length. -/
theorem C10_math_density_bounds :
    (∀ s : String, 0 ≤ _math_density s ∧ _math_density s ≤ 1) ∧
    _math_density "" = 0 := by
  constructor
  · intro s
    by_cases hs : s = ""
    · subst hs; simp [_math_density]
    · have hdata : s.data ≠ [] := fun h0 => hs (String.ext (h0.trans rfl))
      have hlen : 0 < (s.length : ℚ) := by
        have : 0 < s.length := List.length_pos.mpr hdata
        exact_mod_cast this
      rw [_math_density, if_neg hs]
      refine ⟨div_nonneg (Nat.cast_nonneg _) hlen.le, ?_⟩
      rw [div_le_one hlen]
      exact_mod_cast List.length_filter_le _ s.toList
  · simp [_math_density]

-- ── Claim C2 ────────────────────────────────────────────────────────────────

/-- C2 (refuting): on the zero-pages error path, `parse_pdf` raises the typed
extraction error *without* closing the document handle — `doc.close()` is
executed only on the normal-return path, while the `finally` block only
unlinks the temporary file.  So the handle is not closed on every exit
path. -/
theorem C2_close_leak :
    (parse_pdf ⟨[]⟩).result
        = Except.error (PDFError.extraction "PDF appears to have no pages.") ∧
    (parse_pdf ⟨[]⟩).docClosed = false :=
  ⟨rfl, rfl⟩

-- ── Claim C4 ────────────────────────────────────────────────────────────────

/-- C4: with the page's top edge at coordinate 0 (as PyMuPDF page rectangles
have), the figure is classified as lying above the caption exactly when the
caption's top edge lies more than 30% of the page height below the page top;
the search zone then spans the full page width from page top to caption top,
and otherwise from caption bottom to page bottom; in particular a caption at
y = 5% of the page height is classified "below". -/
theorem C4_above_below (cap pr : Rect) (hy0 : pr.y0 = 0) (hh : 0 < pr.height) :
    (_figure_is_above_caption cap pr.height = true ↔
      pr.height * (30 / 100) < cap.y0 - pr.y0)
    ∧ (_figure_is_above_caption cap pr.height = true →
        searchZone cap pr = ⟨pr.x0, pr.y0, pr.x1, cap.y0⟩)
    ∧ (_figure_is_above_caption cap pr.height = false →
        searchZone cap pr = ⟨pr.x0, cap.y1, pr.x1, pr.y1⟩)
    ∧ (cap.y0 = pr.height * (5 / 100) →
        _figure_is_above_caption cap pr.height = false ∧
        searchZone cap pr = ⟨pr.x0, cap.y1, pr.x1, pr.y1⟩) := by
  have hiff : _figure_is_above_caption cap pr.height = true ↔
      pr.height * (30 / 100) < cap.y0 - pr.y0 := by
    rw [hy0, sub_zero, _figure_is_above_caption, decide_eq_true_eq]
  refine ⟨hiff, fun hab => ?_, fun hbel => ?_, fun h5 => ?_⟩
  · rw [searchZone, if_pos hab]
  · rw [searchZone, if_neg (by rw [hbel]; exact Bool.false_ne_true)]
  · have hnot : _figure_is_above_caption cap pr.height = false := by
      rw [_figure_is_above_caption, decide_eq_false_iff_not]
      rw [h5]
      intro hlt
      nlinarith
    exact ⟨hnot, by rw [searchZone, if_neg (by rw [hnot]; exact Bool.false_ne_true)]⟩

/-- C4 witness: a caption at y = 39 on a 780-point-high page (5% of the page
height) is classified "below" and the zone runs from caption bottom to page
bottom. -/
theorem C4_above_below_witness :
    (Rect.y0 ⟨0, 0, 612, 780⟩ = 0) ∧ (0 : ℚ) < Rect.height ⟨0, 0, 612, 780⟩ ∧
    (_figure_is_above_caption ⟨30, 39, 300, 51⟩ (Rect.height ⟨0, 0, 612, 780⟩) = false ∧
      searchZone ⟨30, 39, 300, 51⟩ ⟨0, 0, 612, 780⟩ = ⟨0, 51, 612, 780⟩) :=
  ⟨rfl, by decide,
    (C4_above_below ⟨30, 39, 300, 51⟩ ⟨0, 0, 612, 780⟩ rfl (by decide)).2.2.2 (by decide)⟩

-- ── Claim C3 ────────────────────────────────────────────────────────────────

/-- C3 (refuting the "exactly when no rectangle survives" part): a 15-point-
wide drawing survives the zone-intersection filter (its intersection exceeds
the 10-point minimum) yet its union is not wider than 20 points, so the code
falls through to the fixed-height fallback even though a survivor exists. -/
theorem C3_counterexample :
    zoneSurvivors ⟨100, 700, 300, 712⟩ (⟨0, 0, 612, 792⟩ : Rect) [⟨50, 100, 65, 200⟩] ≠ [] ∧
    _crop_for_caption ⟨100, 700, 300, 712⟩ "Figure 1: x" pageC3 [⟨50, 100, 65, 200⟩] [] []
      = some ⟨80, 500, 320, 712⟩ := by
  constructor
  · decide
  · decide

/-- C3 (amended): whenever the zone-union step yields no crop — no
drawing/raster rectangle survives the filter, *or* the survivors' union is
not strictly wider and taller than 20 points — the result is the fallback
rectangle (at most 200 points above the caption top, down to the caption
bottom, padded 20 points left and right) exactly when the figure was
classified "above" and the vertical span between page top and caption top
exceeds 40 points, and "no region found" otherwise. -/
theorem C3_fallback (cap : Rect) (t : String) (page : Page) (ds rs : List Rect)
    (tb : List (Rect × String))
    (hns : ∀ u, _union_rects (zoneSurvivors cap page.rect (ds ++ rs)) = some u →
      ¬(20 < u.width ∧ 20 < u.height)) :
    _crop_for_caption cap t page ds rs tb =
      if _figure_is_above_caption cap page.rect.height = true ∧
          40 < cap.y0 - page.rect.y0 then
        some ⟨cap.x0 - 20, cap.y0 - min 200 (cap.y0 - page.rect.y0), cap.x1 + 20, cap.y1⟩
      else none := by
  have hfall :
      (if _figure_is_above_caption cap page.rect.height
            && decide ((40 : ℚ) <
              (if _figure_is_above_caption cap page.rect.height then
                min 200 (cap.y0 - page.rect.y0) else 200)) then
          some (⟨cap.x0 - 20,
            cap.y0 - (if _figure_is_above_caption cap page.rect.height then
              min 200 (cap.y0 - page.rect.y0) else 200),
            cap.x1 + 20, cap.y1⟩ : Rect)
        else none) =
      if _figure_is_above_caption cap page.rect.height = true ∧
          40 < cap.y0 - page.rect.y0 then
        some ⟨cap.x0 - 20, cap.y0 - min 200 (cap.y0 - page.rect.y0), cap.x1 + 20, cap.y1⟩
      else none := by
    cases hfa : _figure_is_above_caption cap page.rect.height with
    | false => simp
    | true =>
      by_cases h40 : (40 : ℚ) < cap.y0 - page.rect.y0
      · have hmin : (40 : ℚ) < min 200 (cap.y0 - page.rect.y0) :=
          lt_min_iff.mpr ⟨by norm_num, h40⟩
        simp [hmin, h40]
      · have hmin : ¬ (40 : ℚ) < min 200 (cap.y0 - page.rect.y0) :=
          fun hlt => h40 (lt_of_lt_of_le hlt (min_le_right _ _))
        simp [hmin, h40]
  simp only [_crop_for_caption]
  cases hz : zoneSurvivors cap page.rect (ds ++ rs) with
  | nil => simpa using hfall
  | cons r rs' =>
    have hu : _union_rects (r :: rs') = some (rs'.foldl Rect.union r) := rfl
    have hns' := hns _ (hz ▸ hu)
    have hb : (decide (20 < (rs'.foldl Rect.union r).width)
        && decide (20 < (rs'.foldl Rect.union r).height)) = false := by
      rcases not_and_or.mp hns' with hw | hw <;> simp [hw]
    simp only [hu, List.isEmpty_cons, Bool.false_eq_true, if_false, hb]
    simpa using hfall

/-- C3 witness: with no drawings at all, a caption 700 points below the top
of a 792-point page gets the fallback region. -/
theorem C3_fallback_witness :
    _crop_for_caption ⟨100, 700, 300, 712⟩ "Figure 9" pageC3 [] [] []
      = some ⟨80, 500, 320, 712⟩ := by
  have h := C3_fallback ⟨100, 700, 300, 712⟩ "Figure 9" pageC3 [] [] []
    (fun u hu => Option.noConfusion hu)
  rw [h, if_pos (by exact ⟨by decide, by decide⟩)]
  decide

-- ── Claim C5 ────────────────────────────────────────────────────────────────

/-- C5: every crop actually rendered into a `CroppedFigure` was rendered from
a rectangle that, after the `CROP_PAD` padding and clamping, has width and
height at least 20 points and lies fully within the page rectangle; a
candidate violating the size bound yields no cropped figure. -/
theorem C5_crop_bounds (page : Page) (n : ℕ) (figs : List CroppedFigure)
    (h : _extract_cropped_figures page n = Except.ok figs)
    (fig : CroppedFigure) (hf : fig ∈ figs) :
    ∃ r : Rect,
      page.render CROP_DPI r = Except.ok fig.png_b64 ∧
      20 ≤ r.width ∧ 20 ≤ r.height ∧
      page.rect.x0 ≤ r.x0 ∧ page.rect.y0 ≤ r.y0 ∧
      r.x1 ≤ page.rect.x1 ∧ r.y1 ≤ page.rect.y1 :=
  extractLoop_mem h hf

/-- C5 witness: the concrete page `pageC5` yields exactly one cropped figure,
and its rendered rectangle satisfies all the bounds. -/
theorem C5_crop_bounds_witness :
    _extract_cropped_figures pageC5 1 = Except.ok [figC5] ∧
    ∃ r : Rect,
      pageC5.render CROP_DPI r = Except.ok figC5.png_b64 ∧
      20 ≤ r.width ∧ 20 ≤ r.height ∧
      pageC5.rect.x0 ≤ r.x0 ∧ pageC5.rect.y0 ≤ r.y0 ∧
      r.x1 ≤ pageC5.rect.x1 ∧ r.y1 ≤ pageC5.rect.y1 :=
  ⟨by decide, C5_crop_bounds pageC5 1 [figC5] (by decide) figC5 (by decide)⟩

-- ── Claim C1 ────────────────────────────────────────────────────────────────

/-- C1 (refuting): an exception raised while rendering the crop region of the
*first* caption of the first page aborts the whole parse — the remaining
caption on the page and the remaining page are never processed, and
`parse_pdf` raises instead of returning a `ParsedPDF` covering every page. -/
theorem C1_counterexample :
    _extract_cropped_figures pageC1a 1 = Except.error "render failed" ∧
    (parse_pdf docC1).result
      = Except.error (PDFError.wrapped "Failed to parse PDF." "render failed") := by
  constructor
  · decide
  · decide

/-- C1 (amended): a per-caption failure of *region inference* (no region
found) or of the *degenerate-size check* is skipped and never aborts the loop
— when every render call succeeds, extraction always returns a figure list —
but an exception raised while rendering a crop propagates out of the page
loop and aborts `parse_pdf` with the wrapping extraction error. -/
theorem C1_no_abort :
    (∀ (page : Page) (n : ℕ), renderTotal page →
        ∃ figs, _extract_cropped_figures page n = Except.ok figs)
    ∧ (∀ (doc : Document) (e : String),
        buildPages 0 doc.pages = Except.error e →
        (parse_pdf doc).result
          = Except.error (PDFError.wrapped "Failed to parse PDF." e)) := by
  constructor
  · intro page n hr
    exact extractLoop_ok hr _
  · intro doc e h
    rw [parse_pdf, h]

/-- C1 witness: with a working renderer the same two-caption page extracts
without an error, while the failing renderer aborts the whole `parse_pdf`. -/
theorem C1_no_abort_witness :
    (∃ figs, _extract_cropped_figures pageC1ok 1 = Except.ok figs) ∧
    (parse_pdf docC1).result
      = Except.error (PDFError.wrapped "Failed to parse PDF." "render failed") :=
  ⟨C1_no_abort.1 pageC1ok 1 (fun _ _ => rfl),
   C1_no_abort.2 docC1 "render failed" (by decide)⟩

-- ── Lemmas about `parse_pdf` ────────────────────────────────────────────────

theorem buildPage_spec {p : Page} {m : ℕ} {pd : PageData}
    (h : buildPage p m = Except.ok pd) :
    pd.page_number = m ∧ pd.text = p.text := by
  rw [buildPage] at h
  split at h
  · cases h
  · simp only [Except.ok.injEq] at h
    subst h
    exact ⟨rfl, rfl⟩

theorem buildPage_ok {p : Page} {m : ℕ} (hr : renderTotal p) :
    ∃ pd, buildPage p m = Except.ok pd := by
  obtain ⟨figs, hf⟩ := @extractLoop_ok p m (_collect_drawing_rects p)
    (_collect_raster_blocks p) (_collect_text_blocks p) hr
    ((_collect_text_blocks p).filter fun b => figureCaptionMatch b.2)
  have he : _extract_cropped_figures p m = Except.ok figs := hf
  exact ⟨_, by rw [buildPage, he]⟩

theorem buildPages_spec :
    ∀ (i : ℕ) (ps : List Page) (pds : List PageData),
      buildPages i ps = Except.ok pds →
      pds.map PageData.page_number = List.range' (i + 1) ps.length ∧
      pds.map PageData.text = ps.map Page.text := by
  intro i ps
  induction ps generalizing i with
  | nil =>
    intro pds h
    simp only [buildPages, Except.ok.injEq] at h
    subst h
    simp [List.range']
  | cons p ps ih =>
    intro pds h
    simp only [buildPages] at h
    cases hb : buildPage p (i + 1) with
    | error e => simp only [hb] at h; cases h
    | ok pd =>
      simp only [hb] at h
      cases hr : buildPages (i + 1) ps with
      | error e => simp only [hr] at h; cases h
      | ok pds' =>
        simp only [hr, Except.ok.injEq] at h
        subst h
        obtain ⟨h1, h2⟩ := ih (i + 1) pds' hr
        obtain ⟨hn, ht⟩ := buildPage_spec hb
        constructor
        · rw [List.length_cons, List.range'_succ, List.map_cons, hn, h1]
        · rw [List.map_cons, List.map_cons, ht, h2]

theorem buildPages_ok :
    ∀ (i : ℕ) (ps : List Page), (∀ p ∈ ps, renderTotal p) →
      ∃ pds, buildPages i ps = Except.ok pds := by
  intro i ps
  induction ps generalizing i with
  | nil => exact fun _ => ⟨[], rfl⟩
  | cons p ps ih =>
    intro hr
    obtain ⟨pd, hpd⟩ := @buildPage_ok p (i + 1) (hr p (List.mem_cons_self _ _))
    obtain ⟨pds', hpds⟩ := ih (i + 1) fun x hx => hr x (List.mem_cons_of_mem _ hx)
    exact ⟨pd :: pds', by rw [buildPages, hpd, hpds]⟩

theorem markKeyPages_spec (doc : Document) (ks : Finset ℕ) :
    ∀ (pds ps2 kl : List PageData),
      markKeyPages doc ks pds = Except.ok (ps2, kl) →
      ps2.map PageData.page_number = pds.map PageData.page_number ∧
      ps2.map PageData.text = pds.map PageData.text ∧
      kl = ps2.filter fun x => decide (x.page_number ∈ ks) := by
  intro pds
  induction pds with
  | nil =>
    intro ps2 kl h
    simp only [markKeyPages, Except.ok.injEq, Prod.mk.injEq] at h
    obtain ⟨h1, h2⟩ := h
    subst h1; subst h2
    exact ⟨rfl, rfl, rfl⟩
  | cons pd rest ih =>
    intro ps2 kl h
    simp only [markKeyPages] at h
    by_cases hmem : pd.page_number ∈ ks
    · rw [if_pos hmem] at h
      cases hg : doc.pages[pd.page_number - 1]? with
      | none => simp only [hg] at h; cases h
      | some p =>
        simp only [hg] at h
        cases hrf : _render_full_page p FULL_PAGE_DPI with
        | error e => simp only [hrf] at h; cases h
        | ok png =>
          simp only [hrf] at h
          cases hm : markKeyPages doc ks rest with
          | error e => simp only [hm] at h; cases h
          | ok pair =>
            obtain ⟨ps', kl'⟩ := pair
            simp only [hm, Except.ok.injEq, Prod.mk.injEq] at h
            obtain ⟨h1, h2⟩ := h
            subst h1; subst h2
            obtain ⟨i1, i2, i3⟩ := ih ps' kl' hm
            refine ⟨by simp [i1], by simp [i2], ?_⟩
            rw [i3, List.filter_cons]
            simp [hmem]
    · rw [if_neg hmem] at h
      cases hm : markKeyPages doc ks rest with
      | error e => simp only [hm] at h; cases h
      | ok pair =>
        obtain ⟨ps', kl'⟩ := pair
        simp only [hm, Except.ok.injEq, Prod.mk.injEq] at h
        obtain ⟨h1, h2⟩ := h
        subst h1; subst h2
        obtain ⟨i1, i2, i3⟩ := ih ps' kl' hm
        refine ⟨by simp [i1], by simp [i2], ?_⟩
        rw [i3, List.filter_cons]
        simp [hmem]

theorem markKeyPages_ok (doc : Document) (ks : Finset ℕ)
    (hr : ∀ p ∈ doc.pages, renderTotal p) :
    ∀ pds : List PageData, (∀ pd ∈ pds, pd.page_number - 1 < doc.pages.length) →
      ∃ out, markKeyPages doc ks pds = Except.ok out := by
  intro pds
  induction pds with
  | nil => exact fun _ => ⟨([], []), rfl⟩
  | cons pd rest ih =>
    intro hidx
    obtain ⟨⟨ps', kl'⟩, hm⟩ := ih fun x hx => hidx x (List.mem_cons_of_mem _ hx)
    by_cases hmem : pd.page_number ∈ ks
    · have hlt := hidx pd (List.mem_cons_self _ _)
      have hget : doc.pages[pd.page_number - 1]? = some doc.pages[pd.page_number - 1] :=
        List.getElem?_eq_getElem hlt
      have hmemp : doc.pages[pd.page_number - 1] ∈ doc.pages := List.getElem_mem hlt
      have htot := hr _ hmemp FULL_PAGE_DPI doc.pages[pd.page_number - 1].rect
      cases hrf : _render_full_page doc.pages[pd.page_number - 1] FULL_PAGE_DPI with
      | error e =>
        rw [_render_full_page] at hrf
        rw [hrf] at htot
        exact absurd htot (by simp [exceptIsOk])
      | ok png =>
        refine ⟨({ pd with is_key_page := true, png_b64 := png } :: ps',
                 { pd with is_key_page := true, png_b64 := png } :: kl'), ?_⟩
        rw [markKeyPages, if_pos hmem, hget]
        simp only [hrf, hm]
    · exact ⟨(pd :: ps', kl'), by rw [markKeyPages, if_neg hmem]; simp only [hm]⟩

theorem parse_pdf_ok_inv {doc : Document} {pdf : ParsedPDF}
    (h : (parse_pdf doc).result = Except.ok pdf) :
    ∃ (pages pages2 key_list : List PageData),
      buildPages 0 doc.pages = Except.ok pages ∧
      pages.isEmpty = false ∧
      ¬ (pyStrip (String.intercalate "\n\n" (pages.map PageData.text))).length < 100 ∧
      markKeyPages doc (keyPagesSet pages) pages = Except.ok (pages2, key_list) ∧
      pdf = { pages := pages2,
              full_text := pyStrip (String.intercalate "\n\n" (pages.map PageData.text)),
              key_pages := List.insertionSort pageNumLE key_list } := by
  rw [parse_pdf] at h
  cases hb : buildPages 0 doc.pages with
  | error e => simp only [hb] at h; cases h
  | ok pages =>
    simp only [hb] at h
    by_cases hemp : pages.isEmpty = true
    · rw [if_pos hemp] at h; cases h
    · rw [if_neg hemp] at h
      by_cases hlen :
          (pyStrip (String.intercalate "\n\n" (pages.map PageData.text))).length < 100
      · rw [if_pos hlen] at h; cases h
      · rw [if_neg hlen] at h
        cases hm : markKeyPages doc (keyPagesSet pages) pages with
        | error e => simp only [hm] at h; cases h
        | ok pair =>
          obtain ⟨ps2, kl⟩ := pair
          simp only [hm, Except.ok.injEq] at h
          exact ⟨pages, ps2, kl, rfl, by simpa using hemp, hlen, hm, h.symm⟩

-- ── Claim C8 ────────────────────────────────────────────────────────────────

/-- C8 (refuting the "newline-joined" part): on a two-page document the
returned `full_text` joins the page texts with a *blank line* (`"\n\n"`),
which differs from the newline-joined (`"\n"`) concatenation the claim
states. -/
theorem C8_counterexample :
    Except.map ParsedPDF.full_text (parse_pdf docC8).result
      = Except.ok (String.intercalate "\n\n" [taC8, tbC8]) ∧
    String.intercalate "\n\n" [taC8, tbC8]
      ≠ pyStrip (String.intercalate "\n" [taC8, tbC8]) := by
  constructor
  · decide
  · decide

/-- C8 (amended): a successfully parsed document with N pages yields exactly
N page records numbered 1..N in order, and `full_text` is the concatenation
of the per-page texts joined by a blank line (two newlines) and trimmed. -/
theorem C8_pages_and_full_text (doc : Document) (pdf : ParsedPDF)
    (h : (parse_pdf doc).result = Except.ok pdf) :
    pdf.pages.map PageData.page_number = List.range' 1 doc.pages.length ∧
    pdf.full_text = pyStrip (String.intercalate "\n\n" (doc.pages.map Page.text)) := by
  obtain ⟨pages, ps2, kl, hb, hemp, hlen, hm, rfl⟩ := parse_pdf_ok_inv h
  obtain ⟨hn, ht⟩ := buildPages_spec 0 doc.pages pages hb
  obtain ⟨mn, mt, mk⟩ := markKeyPages_spec doc _ pages ps2 kl hm
  constructor
  · show ps2.map PageData.page_number = _
    rw [mn, hn, Nat.zero_add]
  · show pyStrip _ = pyStrip _
    rw [ht]

-- ── Claim C9 ────────────────────────────────────────────────────────────────

/-- C9 (refuting the "exactly when"): a one-page document with 120
characters of text — neither zero pages nor too little text — still raises
the typed extraction error when rendering a crop raises, so the two stated
conditions are not the only source of the typed error. -/
theorem C9_counterexample :
    docC9x.pages ≠ [] ∧
    ¬(pyStrip (String.intercalate "\n\n" (docC9x.pages.map Page.text))).length < 100 ∧
    (parse_pdf docC9x).result
      = Except.error (PDFError.wrapped "Failed to parse PDF." "boom") := by
  refine ⟨?_, ?_, ?_⟩
  · simp [docC9x]
  · decide
  · decide

/-- C9 (amended): when every page renders successfully, `parse_pdf` returns a
`ParsedPDF` exactly when the document has at least one page and the joined,
trimmed text is at least 100 characters long; every raised error on such
documents is the typed extraction error. -/
theorem C9_extraction_error_iff (doc : Document)
    (hr : ∀ p ∈ doc.pages, renderTotal p) :
    ((∃ pdf, (parse_pdf doc).result = Except.ok pdf) ↔
      ¬(doc.pages = [] ∨
        (pyStrip (String.intercalate "\n\n" (doc.pages.map Page.text))).length < 100)) ∧
    (∀ e, (parse_pdf doc).result = Except.error e →
      ∃ msg, e = PDFError.extraction msg) := by
  obtain ⟨pds, hb⟩ := buildPages_ok 0 doc.pages hr
  obtain ⟨hn, ht⟩ := buildPages_spec 0 doc.pages pds hb
  have hlenq : pds.length = doc.pages.length := by
    have := congrArg List.length hn
    simpa using this
  rw [parse_pdf]
  simp only [hb]
  by_cases hemp : pds.isEmpty = true
  · have hpd : pds = [] := List.isEmpty_iff.mp hemp
    have hdoc : doc.pages = [] :=
      List.length_eq_zero.mp (by rw [← hlenq, hpd]; rfl)
    rw [if_pos hemp]
    constructor
    · constructor
      · rintro ⟨pdf, hpdf⟩; cases hpdf
      · intro hno; exact absurd (Or.inl hdoc) hno
    · intro e he
      simp only [Except.error.injEq] at he
      exact ⟨_, he.symm⟩
  · rw [if_neg hemp]
    have hdoc : doc.pages ≠ [] := by
      intro h0
      apply hemp
      have : pds.length = 0 := by rw [hlenq, h0]; rfl
      rw [List.isEmpty_iff, ← List.length_eq_zero]
      exact this
    by_cases hlen :
        (pyStrip (String.intercalate "\n\n" (pds.map PageData.text))).length < 100
    · rw [if_pos hlen]
      constructor
      · constructor
        · rintro ⟨pdf, hpdf⟩; cases hpdf
        · intro hno
          exact absurd (Or.inr (by rw [← ht]; exact hlen)) hno
      · intro e he
        simp only [Except.error.injEq] at he
        exact ⟨_, he.symm⟩
    · rw [if_neg hlen]
      have hidx : ∀ pd ∈ pds, pd.page_number - 1 < doc.pages.length := by
        intro pd hpd
        have hmm : pd.page_number ∈ pds.map PageData.page_number :=
          List.mem_map_of_mem _ hpd
        rw [hn] at hmm
        have := List.mem_range'_1.mp hmm
        omega
      obtain ⟨⟨ps2, kl⟩, hm⟩ := markKeyPages_ok doc (keyPagesSet pds) hr pds hidx
      simp only [hm]
      constructor
      · constructor
        · intro _
          intro hor
          rcases hor with h0 | h1
          · exact hdoc h0
          · rw [← ht] at h1; exact hlen h1
        · intro _; exact ⟨_, rfl⟩
      · intro e he; cases he

/-- C8 witness: the two-page document produces exactly the expected
`ParsedPDF`, whose pages are numbered `1..N` in order. -/
theorem C8_pages_and_full_text_witness :
    ((parse_pdf docC8).result = Except.ok pdfC8) ∧
    pdfC8.pages.map PageData.page_number = List.range' 1 docC8.pages.length :=
  ⟨by decide, (C8_pages_and_full_text docC8 pdfC8 (by decide)).1⟩

/-- C9 witness: a one-page document with 120 characters of text parses to a
`ParsedPDF`. -/
theorem C9_extraction_error_iff_witness :
    ∃ pdf, (parse_pdf docC9).result = Except.ok pdf := by
  have h := C9_extraction_error_iff docC9 (by
    intro p hp dpi r
    have hp' : p = pageC9 := by simpa [docC9] using hp
    subst hp'
    rfl)
  exact h.1.mpr (fun hor => hor.elim
    (fun h0 => by simp [docC9] at h0)
    (fun h1 => by revert h1; decide))

theorem candidatePages_length_le (pages : List PageData) :
    (candidatePages pages).length ≤ MAX_VISION_PAGES :=
  le_trans (List.length_filter_le _ _) (List.length_take_le _ _)

-- ── Claim C7 ────────────────────────────────────────────────────────────────

/-- C7: for every successfully parsed document the key-page list is a subset
of the page list, strictly increasing in page number, contains page 1,
contains page N whenever N > 1, and has at most `min N (2 + 8)` entries. -/
theorem C7_key_pages_invariants (doc : Document) (pdf : ParsedPDF)
    (h : (parse_pdf doc).result = Except.ok pdf) :
    (∀ p ∈ pdf.key_pages, p ∈ pdf.pages)
    ∧ List.Pairwise (fun a b : PageData => a.page_number < b.page_number) pdf.key_pages
    ∧ (∃ p ∈ pdf.key_pages, p.page_number = 1)
    ∧ (1 < pdf.pages.length →
        ∃ p ∈ pdf.key_pages, p.page_number = pdf.pages.length)
    ∧ pdf.key_pages.length ≤ min pdf.pages.length (2 + MAX_VISION_PAGES) := by
  obtain ⟨pages, ps2, kl, hb, hemp, hlen, hm, rfl⟩ := parse_pdf_ok_inv h
  obtain ⟨hn, ht⟩ := buildPages_spec 0 doc.pages pages hb
  obtain ⟨mn, mt, mk⟩ := markKeyPages_spec doc _ pages ps2 kl hm
  have hn2 : ps2.map PageData.page_number = List.range' 1 doc.pages.length := by
    rw [mn, hn, Nat.zero_add]
  have hlen2 : ps2.length = doc.pages.length := by
    have := congrArg List.length hn2; simpa using this
  have hplen : pages.length = doc.pages.length := by
    have := congrArg List.length hn; simpa using this
  have hpw : List.Pairwise (fun a b : PageData => a.page_number < b.page_number) ps2 := by
    have hr := List.pairwise_lt_range' 1 doc.pages.length
    rw [← hn2] at hr
    exact List.pairwise_map.mp hr
  have hklpw : List.Pairwise (fun a b : PageData => a.page_number < b.page_number) kl := by
    rw [mk]; exact hpw.sublist (List.filter_sublist _)
  have hsorted : List.Sorted pageNumLE kl := hklpw.imp fun hab => le_of_lt hab
  have hkey : List.insertionSort pageNumLE kl = kl := hsorted.insertionSort_eq
  have hpages_ne : pages ≠ [] := by
    intro h0; rw [h0] at hemp; simp at hemp
  have hNpos : 0 < doc.pages.length := by
    rw [← hplen]
    exact List.length_pos.mpr hpages_ne
  refine ⟨?_, ?_, ?_, ?_, ?_⟩
  · intro p hp
    have hp1 : p ∈ List.insertionSort pageNumLE kl := hp
    rw [hkey, mk] at hp1
    exact List.mem_of_mem_filter hp1
  · show List.Pairwise _ (List.insertionSort pageNumLE kl)
    rw [hkey]; exact hklpw
  · have h1mem : (1 : ℕ) ∈ ps2.map PageData.page_number := by
      rw [hn2]; exact List.mem_range'_1.mpr ⟨le_refl 1, by omega⟩
    obtain ⟨p, hp, hp1⟩ := List.mem_map.mp h1mem
    refine ⟨p, ?_, hp1⟩
    show p ∈ List.insertionSort pageNumLE kl
    rw [hkey, mk]
    refine List.mem_filter.mpr ⟨hp, decide_eq_true ?_⟩
    rw [hp1, keyPagesSet]
    exact Finset.mem_union_left _ (Finset.mem_union_left _ (Finset.mem_singleton_self 1))
  · intro hgt1
    have hgt1' : 1 < doc.pages.length := by rwa [← hlen2]
    have hNmem : doc.pages.length ∈ ps2.map PageData.page_number := by
      rw [hn2]; exact List.mem_range'_1.mpr ⟨by omega, by omega⟩
    obtain ⟨p, hp, hpN⟩ := List.mem_map.mp hNmem
    refine ⟨p, ?_, by rw [hpN]; exact hlen2.symm⟩
    show p ∈ List.insertionSort pageNumLE kl
    rw [hkey, mk]
    refine List.mem_filter.mpr ⟨hp, decide_eq_true ?_⟩
    rw [hpN, keyPagesSet]
    refine Finset.mem_union_left _ (Finset.mem_union_right _ ?_)
    rw [hplen, if_pos (by omega)]
    exact Finset.mem_singleton_self _
  · have hlk : (List.insertionSort pageNumLE kl).length = kl.length := by
      rw [hkey]
    refine le_min ?_ ?_
    · show (List.insertionSort pageNumLE kl).length ≤ ps2.length
      rw [hlk, mk]
      exact List.length_filter_le _ _
    · have hnodup : (kl.map PageData.page_number).Nodup :=
        List.pairwise_map.mpr (hklpw.imp fun hlt => ne_of_lt hlt)
      have hsub : ∀ x ∈ kl.map PageData.page_number, x ∈ keyPagesSet pages := by
        intro x hx
        obtain ⟨p, hp, rfl⟩ := List.mem_map.mp hx
        rw [mk] at hp
        exact of_decide_eq_true (List.mem_filter.mp hp).2
      have hcard : kl.length ≤ (keyPagesSet pages).card := by
        calc kl.length = (kl.map PageData.page_number).length :=
              (List.length_map _ _).symm
          _ = (kl.map PageData.page_number).toFinset.card :=
              (List.toFinset_card_of_nodup hnodup).symm
          _ ≤ (keyPagesSet pages).card :=
              Finset.card_le_card fun x hx => hsub x (List.mem_toFinset.mp hx)
      have hks : (keyPagesSet pages).card ≤ 2 + MAX_VISION_PAGES := by
        rw [keyPagesSet]
        refine le_trans (Finset.card_union_le _ _) ?_
        have h1 : (({1} : Finset ℕ) ∪ (if 1 < pages.length then {pages.length} else ∅)).card
            ≤ 2 :=
          le_trans (Finset.card_union_le _ _) (by split <;> simp)
        have h2 : ((candidatePages pages).map PageData.page_number).toFinset.card
            ≤ MAX_VISION_PAGES := by
          refine le_trans (List.toFinset_card_le _) ?_
          rw [List.length_map]
          exact candidatePages_length_le pages
        omega
      show (List.insertionSort pageNumLE kl).length ≤ 2 + MAX_VISION_PAGES
      rw [hlk]
      exact le_trans hcard hks

/-- C7 witness: the concrete one-page document parses to the expected
`ParsedPDF`, whose key pages contain page 1. -/
theorem C7_key_pages_invariants_witness :
    ((parse_pdf docC7).result = Except.ok pdfC7) ∧
    (∃ p ∈ pdfC7.key_pages, p.page_number = 1) :=
  ⟨by decide, (C7_key_pages_invariants docC7 pdfC7 (by decide)).2.2.1⟩

-- ── Claim C6 ────────────────────────────────────────────────────────────────

theorem mem_take_of_pair_sublist {α : Type} {p q : α} :
    ∀ {l : List α} {k : ℕ}, l.Nodup → List.Sublist [p, q] l →
      q ∈ l.take k → p ∈ l.take k := by
  intro l
  induction l with
  | nil => intro k _ hs hq; simp at hs
  | cons x l ih =>
    intro k hnd hs hq
    cases k with
    | zero => simp at hq
    | succ k' =>
      rw [List.take_succ_cons] at hq ⊢
      cases hs with
      | cons _ hs' =>
        rcases List.mem_cons.mp hq with rfl | hq'
        · have hql : q ∈ l := hs'.subset (by simp)
          exact absurd hql (List.nodup_cons.mp hnd).1
        · exact List.mem_cons_of_mem _ (ih (List.nodup_cons.mp hnd).2 hs' hq')
      | cons₂ _ hs' =>
        exact List.mem_cons_self _ _

/-- C6: the page score is `4·(keyword) + 3·(cropped figures) +
2·min(images, 3) + 20·(symbol density)`; the selection loop adds at most 8
pages, each with score strictly greater than `1/2`, all of them scoring at
least as high as every non-selected page, preferring the earlier page on
ties; the key-page set is exactly page 1, the last page (when more than one),
and those additions. -/
theorem C6_scoring_and_selection (pd : PageData) (pages : List PageData) :
    _score_page pd =
        (if pd.has_figure_keyword then (4 : ℚ) else 0)
        + 3 * (pd.cropped_figures.length : ℚ)
        + 2 * ((min pd.image_count 3 : ℕ) : ℚ)
        + 20 * _math_density pd.text
    ∧ (candidatePages pages).length ≤ MAX_VISION_PAGES
    ∧ (∀ q ∈ candidatePages pages, (1 / 2 : ℚ) < _score_page q)
    ∧ (∀ q ∈ candidatePages pages, ∀ p ∈ pages,
        p ∉ candidatePages pages → _score_page p ≤ _score_page q)
    ∧ (pages.Nodup → ∀ p q : PageData, List.Sublist [p, q] pages →
        _score_page p = _score_page q →
        q ∈ candidatePages pages → p ∈ candidatePages pages)
    ∧ (∀ n : ℕ, n ∈ keyPagesSet pages ↔
        (n = 1 ∨ (1 < pages.length ∧ n = pages.length)
          ∨ n ∈ (candidatePages pages).map PageData.page_number)) := by
  refine ⟨?_, candidatePages_length_le pages, ?_, ?_, ?_, ?_⟩
  · simp only [_score_page]
    have hfig : pd.cropped_figures.isEmpty = true → (pd.cropped_figures.length : ℚ) = 0 :=
      fun h => by simp [List.isEmpty_iff.mp h]
    have himg : ¬0 < pd.image_count → ((min pd.image_count 3 : ℕ) : ℚ) = 0 :=
      fun h => by simp [Nat.eq_zero_of_not_pos h]
    split_ifs
    all_goals try rw [hfig ‹pd.cropped_figures.isEmpty = true›]
    all_goals try rw [himg ‹¬0 < pd.image_count›]
    all_goals ring
  · intro q hq
    exact of_decide_eq_true (List.mem_filter.mp hq).2
  · intro q hq p hp hpn
    have hsorted : List.Sorted scoreGE (sortedByScoreDesc pages) :=
      List.sorted_insertionSort scoreGE pages
    have hq8 : q ∈ (sortedByScoreDesc pages).take MAX_VISION_PAGES :=
      (List.mem_filter.mp hq).1
    have hpmem : p ∈ sortedByScoreDesc pages := by
      rw [sortedByScoreDesc]
      exact (List.mem_insertionSort scoreGE).mpr hp
    rw [← List.take_append_drop MAX_VISION_PAGES (sortedByScoreDesc pages)] at hpmem
    rcases List.mem_append.mp hpmem with hpt | hpd
    · have hnp : ¬((1 : ℚ) / 2 < _score_page p) := fun hgt =>
        hpn (List.mem_filter.mpr ⟨hpt, decide_eq_true hgt⟩)
      have hq05 := of_decide_eq_true (List.mem_filter.mp hq).2
      linarith [not_lt.mp hnp]
    · exact hsorted.rel_of_mem_take_of_mem_drop hq8 hpd
  · intro hnd p q hsub heq hq
    have hab : scoreGE p q := le_of_eq heq.symm
    have hsub' : List.Sublist [p, q] (sortedByScoreDesc pages) :=
      List.pair_sublist_insertionSort hab hsub
    have hnds : (sortedByScoreDesc pages).Nodup :=
      (List.perm_insertionSort scoreGE pages).nodup_iff.mpr hnd
    have hq8 : q ∈ (sortedByScoreDesc pages).take MAX_VISION_PAGES :=
      (List.mem_filter.mp hq).1
    have hp8 := mem_take_of_pair_sublist hnds hsub' hq8
    refine List.mem_filter.mpr ⟨hp8, decide_eq_true ?_⟩
    rw [heq]
    exact of_decide_eq_true (List.mem_filter.mp hq).2
  · intro n
    rw [keyPagesSet]
    simp only [Finset.mem_union, Finset.mem_singleton, List.mem_toFinset]
    by_cases hl : 1 < pages.length
    · simp only [if_pos hl, Finset.mem_singleton]
      constructor
      · rintro ((h | h) | h)
        · exact Or.inl h
        · exact Or.inr (Or.inl ⟨hl, h⟩)
        · exact Or.inr (Or.inr h)
      · rintro (h | ⟨_, h⟩ | h)
        · exact Or.inl (Or.inl h)
        · exact Or.inl (Or.inr h)
        · exact Or.inr h
    · simp only [if_neg hl, Finset.not_mem_empty]
      constructor
      · rintro ((h | h) | h)
        · exact Or.inl h
        · exact absurd h id
        · exact Or.inr (Or.inr h)
      · rintro (h | ⟨hgt, _⟩ | h)
        · exact Or.inl (Or.inl h)
        · exact absurd hgt hl
        · exact Or.inr h

/-- C6 witness: two pages tied at score 4; the earlier tied page is selected
whenever the later one is. -/
theorem C6_scoring_and_selection_witness :
    [pW1, pW2].Nodup ∧ _score_page pW1 = _score_page pW2 ∧
    pW2 ∈ candidatePages [pW1, pW2] ∧ pW1 ∈ candidatePages [pW1, pW2] :=
  ⟨by decide, by decide, by decide,
    (C6_scoring_and_selection pW1 [pW1, pW2]).2.2.2.2.1 (by decide) pW1 pW2
      (List.Sublist.refl _) (by decide) (by decide)⟩

example : figureCaptionMatch "Figure 2: Scaled Dot-Product Attention" = true := by decide
example : figureCaptionMatch "  fig. 3 shows" = true := by decide
example : figureCaptionMatch "figures 3" = false := by decide
example : figureCaptionMatch "fig 4" = true := by decide
example : figureCaptionMatch "config. 3" = false := by decide
example : hasFigureKeyword "see Table 2 for" = true := by decide
example : hasFigureKeyword "configure it" = false := by decide
example : hasFigureKeyword "the fig. was" = false := by decide
example : hasFigureKeyword "the fig.3 was" = true := by decide

end PdfParser
